import Mathlib

/-!
Shallow embedding of the vpa-graceful-drain-controller core (Go) and proofs
about it.  The definitions mirror, function by function, the Go sources:
`pkg/controller/config.go` (Config, NamespaceSelector, ParseConfig),
`pkg/controller/pod_controller.go` (shouldManagePod,
isPodFromVPAManagedWorkload, handlePodDeletion, getConfig) and
`pkg/finalizer` (HandleGracefulDrain, isPodReady, checkActiveConnections,
checkPodEndpoints).  Machine integers (Go int64, time.Duration in
nanoseconds) are modelled as Lean Int; the values involved never approach
the int64 range in any statement below, so no wrap-around modelling is
needed except inside the strconv.ParseInt model, which enforces the int64
bounds exactly as the Go library does.
-/

/-! ## Data model: the pod fields consumed by the controller -/

/-- Go corev1.PodPhase, the five standard values. -/
inductive PodPhase where
  | Pending
  | Running
  | Succeeded
  | Failed
  | Unknown
deriving DecidableEq, Repr

/-- One entry of a pod condition list; only Type and Status are consumed
(Go strings, e.g. "Ready" / "True"). -/
structure PodCondition where
  condType : String
  condStatus : String
deriving DecidableEq, Repr

/-- Go metav1.OwnerReference; only its presence (list length) is consumed. -/
structure OwnerReference where
  kind : String
  name : String
deriving DecidableEq, Repr

/-- The two quantities the controller reads from a Go corev1.ResourceList:
CPU in milli-units and memory in bytes.  `none` means the key is absent
from the map; Go Quantity.MilliValue / Value of an absent key is 0. -/
structure ResourceList where
  cpuMilli : Option Int
  memBytes : Option Int
deriving DecidableEq, Repr

/-- Go Quantity.MilliValue() of ResourceList.Cpu(): an absent map or an
absent key yields the zero quantity. -/
def cpuMilliValue : Option ResourceList → Int
  | none => 0
  | some r => r.cpuMilli.getD 0

/-- Go Quantity.Value() of ResourceList.Memory(). -/
def memByteValue : Option ResourceList → Int
  | none => 0
  | some r => r.memBytes.getD 0

/-- The container fields consumed: declared ports and the resource
requests/limits maps (`none` models a nil Go map). -/
structure Container where
  ports : List Int
  requests : Option ResourceList
  limits : Option ResourceList
deriving DecidableEq, Repr

/-- The pod fields consumed by the controller.  Annotation and label maps
are association lists; deletionTimestamp and times are nanoseconds on an
absolute clock (Go time.Time), durations are nanoseconds
(Go time.Duration). -/
structure Pod where
  name : String
  namespc : String
  annota : List (String × String)
  labels : List (String × String)
  ownerReferences : List OwnerReference
  deletionTimestamp : Option Int
  finalizers : List String
  phase : PodPhase
  conditions : List PodCondition
  podIP : String
  containers : List Container
deriving DecidableEq, Repr

/-! ## config.go: NamespaceSelector, Config, ParseConfig -/

/-- Go NamespaceSelector struct: Include and Exclude lists of namespace
names (a nil and an empty Go slice are indistinguishable to Matches,
which only ever takes their length and members).  Field names carry a
List suffix because `include` is reserved in Lean. -/
structure NamespaceSelector where
  includeList : List String
  excludeList : List String
deriving DecidableEq, Repr

/-- Go (ns *NamespaceSelector).Matches for a non-nil receiver: the Exclude
list is scanned first (a hit returns false), then a nonempty Include
list decides membership, otherwise true. -/
def NamespaceSelector.Matches (sel : NamespaceSelector) (ns : String) : Bool :=
  if sel.excludeList.length > 0 ∧ sel.excludeList.contains ns then false
  else if sel.includeList.length > 0 then sel.includeList.contains ns
  else true

/-- Go Matches including the nil-receiver branch (`ns == nil` returns
true); the Go pointer is an Option here. -/
def NamespaceSelectorMatches : Option NamespaceSelector → String → Bool
  | none, _ => true
  | some sel, ns => sel.Matches ns

/-- Go Config struct (seconds as int64, optional selector). -/
structure Config where
  gracePeriodSeconds : Int
  drainTimeoutSeconds : Int
  namespaceSelector : Option NamespaceSelector
deriving DecidableEq, Repr

/-- Go NewDefaultConfig(): 30s grace, 300s drain timeout, no selector. -/
def NewDefaultConfig : Config :=
  { gracePeriodSeconds := 30, drainTimeoutSeconds := 300, namespaceSelector := none }

/-- Go Config.GetGracePeriod(): seconds to time.Duration (nanoseconds). -/
def Config.GetGracePeriod (c : Config) : Int :=
  c.gracePeriodSeconds * 1000000000

/-- Go Config.GetDrainTimeout(): seconds to time.Duration (nanoseconds). -/
def Config.GetDrainTimeout (c : Config) : Int :=
  c.drainTimeoutSeconds * 1000000000

/-- Decimal value of a nonempty all-digit character list, as consumed by
strconv.ParseInt with base 10; any non-digit character fails. -/
def decDigits : List Char → Option Nat
  | [] => none
  | cs =>
    cs.foldl
      (fun acc c =>
        match acc with
        | none => none
        | some n => if c.isDigit then some (n * 10 + (c.toNat - 48)) else none)
      (some 0)

/-- Go strconv.ParseInt(s, 10, 64): optional single sign, then decimal
digits, rejecting empty digit strings and values outside int64. -/
def parseInt64 (s : String) : Option Int :=
  let core : List Char → Option Int := fun chars =>
    match chars with
    | '+' :: rest => (decDigits rest).map (fun n => (n : Int))
    | '-' :: rest => (decDigits rest).map (fun n => -(n : Int))
    | rest => (decDigits rest).map (fun n => (n : Int))
  match core s.toList with
  | none => none
  | some v =>
    if v < -9223372036854775808 ∨ v > 9223372036854775807 then none else some v

/-- The distinct error returns of Go ParseConfig, one constructor per
fmt.Errorf site. -/
inductive ParseErr where
  | nilConfigMap
  | gracePeriodNotInt
  | gracePeriodNegative (g : Int)
  | gracePeriodTooLarge (g : Int)
  | drainTimeoutNotInt
  | drainTimeoutNonPositive (d : Int)
  | drainTimeoutTooLarge (d : Int)
  | drainTimeoutLessThanGrace (d g : Int)
  | selectorInvalidJSON
deriving DecidableEq, Repr

/-- The Go error strings produced at each ParseConfig error site. -/
def ParseErr.message : ParseErr → String
  | .nilConfigMap => "configMap cannot be nil"
  | .gracePeriodNotInt => "invalid gracePeriodSeconds"
  | .gracePeriodNegative g =>
      "gracePeriodSeconds must be non-negative, got: " ++ toString g
  | .gracePeriodTooLarge g =>
      "gracePeriodSeconds must be less than 3600 (1 hour), got: " ++ toString g
  | .drainTimeoutNotInt => "invalid drainTimeoutSeconds"
  | .drainTimeoutNonPositive d =>
      "drainTimeoutSeconds must be positive, got: " ++ toString d
  | .drainTimeoutTooLarge d =>
      "drainTimeoutSeconds must be less than 7200 (2 hours), got: " ++ toString d
  | .drainTimeoutLessThanGrace d g =>
      "drainTimeoutSeconds (" ++ toString d ++ ") must be greater than gracePeriodSeconds ("
        ++ toString g ++ ")"
  | .selectorInvalidJSON => "invalid namespaceSelector JSON"

/-- Go corev1.ConfigMap as consumed by ParseConfig: only its Data map
(`none` models a nil Go map). -/
structure ConfigMap where
  data : Option (List (String × String))
deriving DecidableEq, Repr

/-- Go ParseConfig.  The nil pointer argument is `none`.  The
encoding/json.Unmarshal call on the namespaceSelector value is external
library code and is passed in as `unmarshal` (returning `none` on
malformed JSON); every other step is translated directly. -/
def ParseConfig (unmarshal : String → Option NamespaceSelector)
    (cm : Option ConfigMap) : Except ParseErr Config :=
  match cm with
  | none => .error .nilConfigMap
  | some c =>
    match c.data with
    | none => .ok NewDefaultConfig
    | some data =>
      let graceStep : Except ParseErr Int :=
        match data.lookup "gracePeriodSeconds" with
        | none => .ok NewDefaultConfig.gracePeriodSeconds
        | some s =>
          match parseInt64 s with
          | none => .error .gracePeriodNotInt
          | some g =>
            if g < 0 then .error (.gracePeriodNegative g)
            else if g > 3600 then .error (.gracePeriodTooLarge g)
            else .ok g
      match graceStep with
      | .error e => .error e
      | .ok g =>
        let drainStep : Except ParseErr Int :=
          match data.lookup "drainTimeoutSeconds" with
          | none => .ok NewDefaultConfig.drainTimeoutSeconds
          | some s =>
            match parseInt64 s with
            | none => .error .drainTimeoutNotInt
            | some d =>
              if d ≤ 0 then .error (.drainTimeoutNonPositive d)
              else if d > 7200 then .error (.drainTimeoutTooLarge d)
              else if d < g then .error (.drainTimeoutLessThanGrace d g)
              else .ok d
        match drainStep with
        | .error e => .error e
        | .ok d =>
          match data.lookup "namespaceSelector" with
          | none =>
            .ok { gracePeriodSeconds := g, drainTimeoutSeconds := d,
                  namespaceSelector := none }
          | some s =>
            match unmarshal s with
            | none => .error .selectorInvalidJSON
            | some sel =>
              .ok { gracePeriodSeconds := g, drainTimeoutSeconds := d,
                    namespaceSelector := some sel }

/-! ## Traffic probe: checkPodEndpoints / checkActiveConnections
(package finalizer) -/

/-- The fields of a Go corev1.Service consumed by checkPodEndpoints:
its name and its optional label selector map. -/
structure Service where
  name : String
  selector : Option (List (String × String))

/-- Go labels.Set(selector).AsSelector().Matches(podLabels): every
selector pair must be present in the pod labels with an equal value. -/
def selectorMatches (sel : List (String × String))
    (podLabels : List (String × String)) : Bool :=
  sel.all fun p => podLabels.lookup p.1 == some p.2

/-- One Go corev1.EndpointSubset: only its address IPs are consumed. -/
structure EndpointSubset where
  addresses : List String

/-- The read-only cluster state the drain handler queries: the service
list of the pod's namespace and the per-service endpoints object, each
read fallible with a Go error string. -/
structure Cluster where
  listServices : Except String (List Service)
  getEndpoints : String → Except String (List EndpointSubset)

/-- Go (d *DrainHandler).checkPodEndpoints: a failing service List is
returned as the error; an empty pod IP short-circuits to false; each
service with a non-nil selector matching the pod labels has its
endpoints fetched — a failing Get falls through to the next service
(Go `continue`) — and the pod IP is searched in every subset address. -/
def checkPodEndpoints (cluster : Cluster) (pod : Pod) :
    Except String Bool :=
  match cluster.listServices with
  | .error e => .error e
  | .ok services =>
    if pod.podIP == "" then .ok false
    else
      .ok (services.any fun svc =>
        match svc.selector with
        | none => false
        | some sel =>
          selectorMatches sel pod.labels &&
            (match cluster.getEndpoints svc.name with
             | .error _ => false
             | .ok subsets =>
               subsets.any fun subset => subset.addresses.contains pod.podIP))

/-- Go (d *DrainHandler).checkActiveConnections: short-circuits to
(false, nil) for a non-Running phase, no containers, no exposed port,
or a Ready condition whose status is not True; otherwise defers to
checkPodEndpoints, mapping its error to (true, err) and its boolean to
(itself, nil). -/
def checkActiveConnections (cluster : Cluster) (pod : Pod) :
    Bool × Option String :=
  if pod.phase ≠ PodPhase.Running then (false, none)
  else if pod.containers.length = 0 then (false, none)
  else if ¬ (pod.containers.any fun c => c.ports.length > 0) then (false, none)
  else if pod.conditions.any
      (fun c => c.condType == "Ready" && c.condStatus != "True") then
    (false, none)
  else
    match checkPodEndpoints cluster pod with
    | .error e => (true, some e)
    | .ok hasEndpoints =>
      if ¬ hasEndpoints then (false, none) else (true, none)

/-! ## Drain decision: HandleGracefulDrain (package finalizer) -/

/-- The finalizer package Config interface: the two durations
(nanoseconds) that the drain handler reads. -/
structure DrainConfig where
  gracePeriod : Int
  drainTimeout : Int
deriving DecidableEq, Repr

/-- Bridge from the controller Config to the finalizer Config interface
(what NewDrainHandler captures). -/
def Config.toDrainConfig (c : Config) : DrainConfig :=
  { gracePeriod := c.GetGracePeriod, drainTimeout := c.GetDrainTimeout }

/-- Go (d *DrainHandler).isPodReady: the first condition whose Type is
Ready decides (status equal to True); no Ready condition means false. -/
def firstReadyStatus : List PodCondition → Option String
  | [] => none
  | c :: rest =>
    if c.condType == "Ready" then some c.condStatus else firstReadyStatus rest

/-- Go isPodReady on top of the condition scan. -/
def isPodReady (pod : Pod) : Bool :=
  match firstReadyStatus pod.conditions with
  | some s => s == "True"
  | none => false

/-- Go (d *DrainHandler).HandleGracefulDrain.  `now` is the value of
time.Now() at the time.Since call; the elapsed time is now minus the
deletion timestamp.  Returns (completed, error) exactly as the Go
method: no deletion timestamp completes immediately; elapsed below the
grace period holds; elapsed above the drain timeout completes; a
Succeeded/Failed phase completes; a non-ready pod completes; otherwise
the traffic probe decides, its error propagating with completed=false. -/
def HandleGracefulDrain (cfg : DrainConfig) (cluster : Cluster)
    (now : Int) (pod : Pod) : Bool × Option String :=
  match pod.deletionTimestamp with
  | none => (true, none)
  | some ts =>
    let gracePeriod := cfg.gracePeriod
    let drainTimeout := cfg.drainTimeout
    let timeSinceDeletion := now - ts
    if timeSinceDeletion < gracePeriod then (false, none)
    else if timeSinceDeletion > drainTimeout then (true, none)
    else if pod.phase = PodPhase.Succeeded ∨ pod.phase = PodPhase.Failed then
      (true, none)
    else if ¬ isPodReady pod then (true, none)
    else
      match checkActiveConnections cluster pod with
      | (_, some e) => (false, some e)
      | (hasActive, none) =>
        if ¬ hasActive then (true, none) else (false, none)

/-! ## pod_controller.go: eligibility, deletion handling, getConfig -/

/-- The guard-marker finalizer token. -/
def VPAGracefulDrainFinalizer : String := "vpa-graceful-drain.cho.github.io/finalizer"

/-- Go (r *PodReconciler).isPodFromVPAManagedWorkload: requires at least
one owner reference, then scans the containers; a container whose
Requests or Limits map is non-nil matches when its CPU request
milli-value is positive and divisible by neither 100 nor 50, or its
memory request byte value is positive and not a multiple of 1 MiB.
Only the Requests map is ever read for values (`Resources.Requests.Cpu()`
and `Resources.Requests.Memory()` in the source). -/
def isPodFromVPAManagedWorkload (pod : Pod) : Bool :=
  if pod.ownerReferences.length = 0 then false
  else
    pod.containers.any fun container =>
      (container.requests.isSome || container.limits.isSome) &&
        (let cpuMillis := cpuMilliValue container.requests
         (cpuMillis > 0 && cpuMillis % 100 ≠ 0 && cpuMillis % 50 ≠ 0) ||
           (let memoryBytes := memByteValue container.requests
            memoryBytes > 0 && memoryBytes % (1024 * 1024) ≠ 0))

/-- Go (r *PodReconciler).shouldManagePod: namespace selector gate first
(a non-nil selector that does not match returns false), then the
explicit vpa-managed annotation value decides if present, then the two
legacy VPA annotation checks, then the VPA label check, then the
workload heuristic. -/
def shouldManagePod (pod : Pod) (config : Config) : Bool :=
  if config.namespaceSelector.isSome ∧
      ¬ NamespaceSelectorMatches config.namespaceSelector pod.namespc then
    false
  else
    match pod.annota.lookup "vpa-managed" with
    | some vpaManaged => vpaManaged == "true"
    | none =>
      if (pod.annota.lookup "vpa-updater.client.k8s.io/last-updated").isSome then
        true
      else if (match pod.annota.lookup "vpa.k8s.io/resource-name" with
               | some vpaName => vpaName != ""
               | none => false) then
        true
      else if (pod.labels.lookup "vpa.k8s.io/managed").isSome then true
      else isPodFromVPAManagedWorkload pod

/-- The cluster writes handlePodDeletion can attempt, and whether the
drain decision was invoked, recorded as an effect trace. -/
inductive Effect where
  | drainDecision
  | updateRemoveFinalizer
deriving DecidableEq, Repr

/-- Outcome of the Go client Update call on the pod copy. -/
inductive UpdateOutcome where
  | ok
  | conflict
  | failed (msg : String)
deriving DecidableEq, Repr

/-- Go ctrl.Result: only the RequeueAfter duration (nanoseconds) is set
by this controller; the zero value is the empty result. -/
structure CtrlResult where
  requeueAfter : Int
deriving DecidableEq, Repr

/-- ctrl.Result{} -/
def emptyResult : CtrlResult := { requeueAfter := 0 }

/-- Errors returned by handlePodDeletion: the drain error or the update
error. -/
inductive ReconcileErr where
  | drainErr (e : String)
  | updateErr (e : String)
deriving DecidableEq, Repr

/-- The environment of one handlePodDeletion pass: the clock, the
read-only cluster state the probe queries, and the outcome the cluster
would give the finalizer-removing Update. -/
structure ReconcileEnv where
  now : Int
  cluster : Cluster
  update : UpdateOutcome

/-- Go (r *PodReconciler).handlePodDeletion, with its cluster effects
made explicit as a trace: a pod without the guard finalizer returns
(Result{}, nil) untouched; otherwise HandleGracefulDrain is invoked
(effect drainDecision) — an error requeues after 30s, an incomplete
drain after 10s — and on completion the finalizer-removing Update is
attempted (effect updateRemoveFinalizer): a conflict requeues after
100ms without error, another failure returns the error, success returns
(Result{}, nil). -/
def handlePodDeletion (env : ReconcileEnv) (pod : Pod) (config : Config) :
    List Effect × CtrlResult × Option ReconcileErr :=
  if ¬ pod.finalizers.contains VPAGracefulDrainFinalizer then
    ([], emptyResult, none)
  else
    match HandleGracefulDrain config.toDrainConfig env.cluster env.now pod with
    | (_, some e) =>
      ([.drainDecision], { requeueAfter := 30 * 1000000000 }, some (.drainErr e))
    | (completed, none) =>
      if ¬ completed then
        ([.drainDecision], { requeueAfter := 10 * 1000000000 }, none)
      else
        match env.update with
        | .conflict =>
          ([.drainDecision, .updateRemoveFinalizer],
            { requeueAfter := 100 * 1000000 }, none)
        | .failed m =>
          ([.drainDecision, .updateRemoveFinalizer], emptyResult,
            some (.updateErr m))
        | .ok =>
          ([.drainDecision, .updateRemoveFinalizer], emptyResult, none)

/-- Outcome of the Go client Get on the ConfigMap inside getConfig. -/
inductive FetchResult where
  | found (cm : ConfigMap)
  | notFound
  | failed (msg : String)

/-- Errors getConfig can return: the client read error or a parse error. -/
inductive GetConfigErr where
  | clientErr (msg : String)
  | parseErr (e : ParseErr)
deriving DecidableEq, Repr

/-- Go (r *PodReconciler).getConfig: a NotFound read yields
NewDefaultConfig without error, any other read error is returned, and a
found ConfigMap is handed to ParseConfig. -/
def getConfig (unmarshal : String → Option NamespaceSelector)
    (fetch : FetchResult) : Except GetConfigErr Config :=
  match fetch with
  | .failed m => .error (.clientErr m)
  | .notFound => .ok NewDefaultConfig
  | .found cm =>
    match ParseConfig unmarshal (some cm) with
    | .error e => .error (.parseErr e)
    | .ok config => .ok config

/-! ## Concrete fixtures used by witnesses and counterexamples -/

/-- A baseline pod: deletion requested at time 0, running, no
containers, no conditions, guard finalizer absent. -/
def pod0 : Pod :=
  { name := "p", namespc := "default", annota := [], labels := [],
    ownerReferences := [], deletionTimestamp := some 0, finalizers := [],
    phase := PodPhase.Running, conditions := [], podIP := "", containers := [] }

/-- A trivial cluster: empty service list, empty endpoints. -/
def cluster0 : Cluster :=
  { listServices := .ok [], getEndpoints := fun _ => .ok [] }

/-- The default durations as the drain handler sees them (30s / 300s in
nanoseconds). -/
def cfg0 : DrainConfig :=
  { gracePeriod := 30000000000, drainTimeout := 300000000000 }

/-! ## C1 -/

/-- A ConfigMap setting only gracePeriodSeconds, above the default
drainTimeoutSeconds of 300. -/
def cmC1 : ConfigMap := { data := some [("gracePeriodSeconds", "301")] }

/-- The configuration ParseConfig accepts for cmC1. -/
def cfgC1 : Config :=
  { gracePeriodSeconds := 301, drainTimeoutSeconds := 300, namespaceSelector := none }

/-- C1: ParseConfig accepts a ConfigMap that sets only
gracePeriodSeconds to 301, yielding a configuration whose drain timeout
(300s) is below its grace period (301s) — the validator invariant
drainTimeout >= gracePeriod does not hold on every accepted input,
because the cross-field check only runs when the drainTimeoutSeconds
key is present. -/
theorem parseConfig_grace_only_violates_invariant :
    ParseConfig (fun _ => none) (some cmC1) = .ok cfgC1 ∧
    cfgC1.GetDrainTimeout < cfgC1.GetGracePeriod := by
  exact ⟨rfl, by decide⟩

/-! ## C2 -/

/-- C2: for every configuration, cluster state, clock value and pod with
a deletion timestamp, an elapsed time below the grace period makes
HandleGracefulDrain return (false, nil) — hold — regardless of phase,
readiness and traffic-probe outcome. -/
theorem handleGracefulDrain_holds_within_grace
    (cfg : DrainConfig) (cluster : Cluster) (now ts : Int) (pod : Pod)
    (hts : pod.deletionTimestamp = some ts)
    (helapsed : now - ts < cfg.gracePeriod) :
    HandleGracefulDrain cfg cluster now pod = (false, none) := by
  unfold HandleGracefulDrain
  rw [hts]
  simp only [if_pos helapsed]

/-- Witness for C2: default config, pod deleted 10s ago, running. -/
theorem handleGracefulDrain_holds_within_grace_witness :
    HandleGracefulDrain cfg0 cluster0 10000000000 pod0 = (false, none) :=
  handleGracefulDrain_holds_within_grace cfg0 cluster0 10000000000 0 pod0
    rfl (by decide)

/-! ## C3 -/

/-- Durations with grace period (400s) above drain timeout (300s): such
a configuration is reachable, since ParseConfig accepts a ConfigMap
setting only gracePeriodSeconds to 400. -/
def cfgC3 : DrainConfig :=
  { gracePeriod := 400000000000, drainTimeout := 300000000000 }

/-- C3 counterexample: with grace period 400s and drain timeout 300s, a
pod deleted 350s ago has elapsed > drainTimeout, yet HandleGracefulDrain
returns (false, nil) — hold, not release — because the grace-period
check fires first.  This refutes the claim for an arbitrary
configuration. -/
theorem handleGracefulDrain_timeout_exceeded_yet_holds :
    (350000000000 : Int) - 0 > cfgC3.drainTimeout ∧
    pod0.deletionTimestamp = some 0 ∧
    HandleGracefulDrain cfgC3 cluster0 350000000000 pod0 = (false, none) :=
  ⟨by decide, rfl, rfl⟩

/-- C3 amended: for every configuration whose grace period is at most
its drain timeout (the documented invariant of validated
configurations), every cluster state, clock value and pod with a
deletion timestamp, an elapsed time above the drain timeout makes
HandleGracefulDrain return (true, nil) — release — regardless of phase,
readiness and traffic-probe outcome. -/
theorem handleGracefulDrain_releases_after_timeout
    (cfg : DrainConfig) (cluster : Cluster) (now ts : Int) (pod : Pod)
    (hts : pod.deletionTimestamp = some ts)
    (hinv : cfg.gracePeriod ≤ cfg.drainTimeout)
    (helapsed : now - ts > cfg.drainTimeout) :
    HandleGracefulDrain cfg cluster now pod = (true, none) := by
  unfold HandleGracefulDrain
  rw [hts]
  have hnotgrace : ¬ (now - ts < cfg.gracePeriod) := by omega
  simp only [if_neg hnotgrace, if_pos helapsed]

/-- Witness for C3 amended: default config, pod deleted 400s ago. -/
theorem handleGracefulDrain_releases_after_timeout_witness :
    HandleGracefulDrain cfg0 cluster0 400000000000 pod0 = (true, none) :=
  handleGracefulDrain_releases_after_timeout cfg0 cluster0 400000000000 0 pod0
    rfl (by decide) (by decide)

/-! ## C4 -/

/-- The selector of the repository's own test "should prioritize include
over exclude". -/
def selC4 : NamespaceSelector :=
  { includeList := ["default", "production", "kube-system"],
    excludeList := ["kube-system", "kube-public"] }

/-- C4: a namespace present in both the include and the exclude list is
rejected by Matches — the code scans the exclude list first, so exclude
wins over include, contradicting the claim (and the repository's own
test, which expects true for this very input). -/
theorem matches_exclude_overrides_include :
    selC4.includeList.contains "kube-system" = true ∧
    selC4.Matches "kube-system" = false :=
  ⟨rfl, rfl⟩

/-! ## C5 -/

/-- A selector with a present but zero-length include list (what
unmarshalling the JSON text with include as an empty array produces)
and no exclusions. -/
def selC5 : NamespaceSelector := { includeList := [], excludeList := [] }

/-- C5: a present but zero-length include list matches every namespace
rather than none: Matches skips the membership test whenever the
include list has length zero and falls through to true, exactly as for
an absent selector — contradicting the claim (and the repository's own
test, which expects false here). -/
theorem matches_empty_include_matches_everything :
    selC5.Matches "default" = true ∧
    selC5.Matches "production" = true ∧
    NamespaceSelectorMatches none "default" = true :=
  ⟨rfl, rfl, rfl⟩

/-! ## C6 -/

/-- C6: for every pod whose annotation map contains vpa-managed and every
configuration whose namespace selector matches the pod's namespace,
shouldManagePod returns exactly the comparison of the annotation value
with "true" — true for "true", false for any other value — regardless
of all other pod state, including simultaneously present legacy VPA
annotation entries and the vpa.k8s.io/managed label. -/
theorem shouldManagePod_explicit_annotation_decides
    (pod : Pod) (config : Config) (v : String)
    (hns : NamespaceSelectorMatches config.namespaceSelector pod.namespc = true)
    (hv : pod.annota.lookup "vpa-managed" = some v) :
    shouldManagePod pod config = (v == "true") := by
  unfold shouldManagePod
  rw [if_neg, hv]
  intro hcon
  exact hcon.2 hns

/-- A pod carrying vpa-managed "false" together with both legacy VPA
annotation entries and the VPA label. -/
def podC6 : Pod :=
  { pod0 with
    annota := [("vpa-managed", "false"),
               ("vpa-updater.client.k8s.io/last-updated", "2023-01-01T00:00:00Z"),
               ("vpa.k8s.io/resource-name", "my-vpa")]
    labels := [("vpa.k8s.io/managed", "true")] }

/-- Witness for C6: the explicit "false" dominates every legacy signal. -/
theorem shouldManagePod_explicit_annotation_decides_witness :
    shouldManagePod podC6 NewDefaultConfig = false := by
  simpa using
    shouldManagePod_explicit_annotation_decides podC6 NewDefaultConfig "false"
      rfl rfl

/-! ## C7 -/

/-- A pod with one owner reference whose only container declares no
requests map and a limits map with a non-round CPU value of 125m. -/
def podC7 : Pod :=
  { pod0 with
    ownerReferences := [{ kind := "ReplicaSet", name := "test-rs" }]
    containers := [{ ports := [],
                     requests := none,
                     limits := some { cpuMilli := some 125, memBytes := none } }] }

/-- C7 counterexample: podC7 has an owner reference and a container whose
limits carry the non-round CPU value 125m (not a multiple of 50 or
100), yet the heuristic classifies it as not managed — the loop only
ever reads the Requests map, so a non-round value present only in
Limits is invisible to it. -/
theorem heuristic_misses_limits_only_values :
    podC7.ownerReferences.length = 1 ∧
    (podC7.containers.map fun c => cpuMilliValue c.limits) = [125] ∧
    (125 : Int) % 50 ≠ 0 ∧
    isPodFromVPAManagedWorkload podC7 = false :=
  ⟨rfl, rfl, by decide, rfl⟩

/-- The amended heuristic, stated from the amended claim's words: at
least one owner reference, and some container whose requests or limits
map is present and whose CPU request milli-value is positive and a
multiple of neither 100 nor 50, or whose memory request byte value is
positive and not a multiple of 1 MiB; limit values are never
inspected. -/
def heuristicManagedSpec (pod : Pod) : Prop :=
  pod.ownerReferences ≠ [] ∧
    ∃ c ∈ pod.containers,
      (c.requests.isSome = true ∨ c.limits.isSome = true) ∧
      ((cpuMilliValue c.requests > 0 ∧ cpuMilliValue c.requests % 100 ≠ 0 ∧
          cpuMilliValue c.requests % 50 ≠ 0) ∨
        (memByteValue c.requests > 0 ∧
          memByteValue c.requests % (1024 * 1024) ≠ 0))

/-- C7 amended: isPodFromVPAManagedWorkload classifies a pod as managed
exactly when it has at least one owner reference and some container
declares a requests or limits map whose CPU request milli-value or
memory request byte value is non-round in the code's sense — request
values only; limits are checked for presence but never read. -/
theorem heuristic_requests_only_iff (pod : Pod) :
    isPodFromVPAManagedWorkload pod = true ↔ heuristicManagedSpec pod := by
  unfold isPodFromVPAManagedWorkload heuristicManagedSpec
  by_cases h : pod.ownerReferences.length = 0
  · rw [if_pos h]
    simp [List.length_eq_zero.mp h]
  · rw [if_neg h]
    have hne : pod.ownerReferences ≠ [] := by
      intro he
      exact h (by simp [he])
    simp [hne, List.any_eq_true, Bool.and_eq_true, Bool.or_eq_true,
      decide_eq_true_eq, and_assoc]

/-! ## C8 -/

/-- A service whose label selector matches podC8's labels. -/
def svcC8 : Service := { name := "svc", selector := some [("app", "x")] }

/-- A cluster whose service List succeeds but whose endpoints Get fails
for every service. -/
def clusterC8 : Cluster :=
  { listServices := .ok [svcC8], getEndpoints := fun _ => .error "get failed" }

/-- A Running, Ready pod with a container exposing a port and a pod IP,
matched by svcC8's selector. -/
def podC8 : Pod :=
  { pod0 with
    podIP := "10.0.0.1"
    labels := [("app", "x")]
    containers := [{ ports := [80], requests := none, limits := none }]
    conditions := [{ condType := "Ready", condStatus := "True" }] }

/-- C8 counterexample: the endpoints Get for the service matching podC8
fails, yet checkActiveConnections returns (false, nil) — a silent
false, not the claimed (true, error) — because checkPodEndpoints
skips a service whose endpoints read fails (Go continue) and finds no
other match. -/
theorem checkActiveConnections_get_failure_silent_false :
    clusterC8.listServices = .ok [svcC8] ∧
    selectorMatches [("app", "x")] podC8.labels = true ∧
    clusterC8.getEndpoints svcC8.name = .error "get failed" ∧
    checkActiveConnections clusterC8 podC8 = (false, none) :=
  ⟨rfl, rfl, rfl, rfl⟩

/-- C8 amended: only a failure of the top-level service List is
propagated: for every Running pod with containers, an exposed port and
no failing Ready condition, a List error makes checkActiveConnections
return (true, error) — assume traffic present; a failing per-service
endpoints Get is instead skipped silently, the service being treated as
not targeting the pod. -/
theorem checkActiveConnections_list_failure_fail_safe
    (cluster : Cluster) (pod : Pod) (m : String)
    (hlist : cluster.listServices = .error m)
    (hphase : pod.phase = PodPhase.Running)
    (hcont : pod.containers.length ≠ 0)
    (hports : (pod.containers.any fun c => c.ports.length > 0) = true)
    (hready : (pod.conditions.any
        fun c => c.condType == "Ready" && c.condStatus != "True") = false) :
    checkActiveConnections cluster pod = (true, some m) := by
  unfold checkActiveConnections checkPodEndpoints
  rw [hlist]
  have h1 : ¬ pod.phase ≠ PodPhase.Running := by simp [hphase]
  rw [if_neg h1, if_neg hcont]
  simp only [hports, hready]
  simp

/-- A cluster whose top-level service List fails. -/
def clusterC8w : Cluster :=
  { listServices := .error "list failed", getEndpoints := fun _ => .ok [] }

/-- Witness for C8 amended: podC8 under a failing service List gets
(true, error). -/
theorem checkActiveConnections_list_failure_fail_safe_witness :
    checkActiveConnections clusterC8w podC8 = (true, some "list failed") :=
  checkActiveConnections_list_failure_fail_safe clusterC8w podC8 "list failed"
    rfl rfl (by decide) (by decide) (by decide)

/-! ## C9 -/

/-- C9: for every environment, configuration and pod carrying a deletion
timestamp but not the guard finalizer, handlePodDeletion performs no
cluster write and invokes no drain decision (empty effect trace) and
returns the empty result with no error — success, no requeue. -/
theorem handlePodDeletion_no_finalizer_no_effect
    (env : ReconcileEnv) (pod : Pod) (config : Config) (ts : Int)
    (_hdel : pod.deletionTimestamp = some ts)
    (hfin : pod.finalizers.contains VPAGracefulDrainFinalizer = false) :
    handlePodDeletion env pod config = ([], emptyResult, none) := by
  have hmem : VPAGracefulDrainFinalizer ∉ pod.finalizers := by simpa using hfin
  simp [handlePodDeletion, hmem]

/-- An environment for the C9 witness: trivial cluster, Update would
succeed were it attempted. -/
def env0 : ReconcileEnv := { now := 0, cluster := cluster0, update := .ok }

/-- Witness for C9: pod0 (deleted at time 0, finalizer list empty). -/
theorem handlePodDeletion_no_finalizer_no_effect_witness :
    handlePodDeletion env0 pod0 NewDefaultConfig = ([], emptyResult, none) :=
  handlePodDeletion_no_finalizer_no_effect env0 pod0 NewDefaultConfig 0 rfl rfl

/-! ## C10 -/

/-- C10: ParseConfig on a nil ConfigMap pointer is the nil-configMap
error, whose message says the configMap cannot be nil, rather than the
default configuration; the defaults-on-absence behaviour sits only in
getConfig, which maps a NotFound read to NewDefaultConfig without
error. -/
theorem parseConfig_nil_errors_getConfig_defaults :
    ParseConfig (fun _ => none) none = .error .nilConfigMap ∧
    ParseErr.message .nilConfigMap = "configMap cannot be nil" ∧
    getConfig (fun _ => none) .notFound = .ok NewDefaultConfig ∧
    NewDefaultConfig.gracePeriodSeconds = 30 ∧
    NewDefaultConfig.drainTimeoutSeconds = 300 :=
  ⟨rfl, rfl, rfl, rfl, rfl⟩
